import Mathlib

set_option maxRecDepth 40000

/-!
Shallow embedding of `src/github_search.py`, a command-line GitHub repository
search client.  Python strings are modelled by `String`, JSON string fields by
`JStr` (a JSON string value may be `null`), optional JSON object fields by
`Option`, and the observable behaviour of an invocation (lines printed, exit
status, number of HTTP requests issued) by `RunResult` together with a call
count.  The single HTTP request is abstracted by an `HttpOutcome` parameter:
either the request raised `requests.exceptions.RequestException` (network
failure, timeout, or non-2xx status via `raise_for_status`) or it produced a
parsed JSON body.
-/

/-- A JSON value sitting in a string-typed field: either `null` or a string. -/
inductive JStr where
  | null : JStr
  | str : String → JStr
deriving DecidableEq, Repr

/-- How Python's f-string interpolation shows such a value (`None` for null). -/
def JStr.show : JStr → String
  | .null => "None"
  | .str s => s

/-- The nested `owner` object of a response item; `login` may be absent. -/
structure OwnerObj where
  login : Option JStr
deriving DecidableEq, Repr

/-- One element of the response's `items` list.  Every field may be absent
(`none`), mirroring `repo.get(...)` with a default. -/
structure RepoItem where
  full_name : Option JStr
  description : Option JStr
  stargazers_count : Option Nat
  html_url : Option JStr
  owner : Option OwnerObj
deriving DecidableEq, Repr

/-- The parsed JSON response body: `data.get('total_count', 0)` and
`data.get('items', [])` read these two optional fields. -/
structure ResponseData where
  total_count : Option Nat
  items : Option (List RepoItem)
deriving DecidableEq, Repr

/-- Outcome of the single `requests.get` call: an exception caught by the
`except requests.exceptions.RequestException` clause, or a parsed body. -/
inductive HttpOutcome where
  | failure : String → HttpOutcome
  | success : ResponseData → HttpOutcome
deriving DecidableEq, Repr

/-- One line (or block) printed by the program. -/
inductive OutLine where
  | searching : String → OutLine
  | requestError : String → OutLine
  | noResults : OutLine
  | header : Nat → Nat → Nat → Nat → Nat → OutLine
  | rule : OutLine
  | repoBlock : String → String → Nat → String → String → OutLine
  | nextPageHint : Nat → OutLine
  | usageError : OutLine
deriving DecidableEq, Repr

/-- The observable result of running (part of) the program: `exited c out`
models `sys.exit(c)` after printing `out`; `raised out` models an uncaught
Python exception after printing `out` (the interpreter then exits non-zero);
`returned out` is a normal return after printing `out`. -/
inductive RunResult where
  | exited : Nat → List OutLine → RunResult
  | raised : List OutLine → RunResult
  | returned : List OutLine → RunResult
deriving DecidableEq, Repr

/-- The process exit status produced by each outcome (an uncaught Python
exception terminates the interpreter with status 1). -/
def RunResult.exit_code : RunResult → Nat
  | .exited c _ => c
  | .raised _ => 1
  | .returned _ => 0

/-- The lines printed, regardless of how the run ended. -/
def RunResult.output : RunResult → List OutLine
  | .exited _ out => out
  | .raised out => out
  | .returned out => out

/-- `truncate_text`: if the text is longer than `max_length`, keep the first
`max_length` characters and append `"..."`; otherwise return it unchanged. -/
def truncate_text (text : String) (max_length : Nat) : String :=
  if text.length > max_length then text.take max_length ++ "..." else text

/-- `total_pages = (total_count + per_page - 1) // per_page` (line 52). -/
def total_pages_calc (total_count per_page : Nat) : Nat :=
  (total_count + per_page - 1) / per_page

/-- `start_index = (page - 1) * per_page + 1` (line 59). -/
def start_index (page per_page : Nat) : Nat :=
  (page - 1) * per_page + 1

/-- `end_index = min(page * per_page, total_count)` (line 60). -/
def end_index (page per_page total_count : Nat) : Nat :=
  min (page * per_page) total_count

/-- The body of the `for repo in repos` loop for one item (lines 65-79).
`repo.get('description', '无描述')` yields the placeholder only when the key
is absent; a present `null` reaches `truncate_text`, where `len(None)` raises
`TypeError` before anything of this item is printed — modelled as `none`.
Otherwise the printed block carries name, owner login, star count, truncated
description and URL, each defaulted when its key is absent. -/
def render_item (repo : RepoItem) : Option OutLine :=
  match repo.description.getD (.str "无描述") with
  | .null => none
  | .str d =>
      some (.repoBlock ((repo.full_name.getD (.str "N/A")).show)
        ((((repo.owner.getD ⟨none⟩).login).getD (.str "N/A")).show)
        (repo.stargazers_count.getD 0)
        (truncate_text d 100)
        ((repo.html_url.getD (.str "N/A")).show))

/-- The whole item loop: each successfully rendered block is followed by a
rule line; a `TypeError` aborts the loop, and `.error` carries the lines that
were already printed before the exception. -/
def render_items : List RepoItem → Except (List OutLine) (List OutLine)
  | [] => .ok []
  | r :: rs =>
      match render_item r with
      | none => .error []
      | some b =>
          match render_items rs with
          | .error out => .error (b :: .rule :: out)
          | .ok out => .ok (b :: .rule :: out)

/-- `search_github_repos(query, page, per_page)` (lines 25-83), run against a
given outcome of its single HTTP request.  A request exception prints the
error and calls `sys.exit(1)`; an empty item list prints the no-results
message and returns; otherwise the header and rule are printed, the items are
rendered, and a next-page hint is printed when `page < total_pages`. -/
def search_github_repos (query : String) (page per_page : Nat)
    (http : HttpOutcome) : RunResult :=
  match http with
  | .failure msg => .exited 1 [.requestError msg]
  | .success data =>
      let repos := data.items.getD []
      let total_count := data.total_count.getD 0
      let total_pages := total_pages_calc total_count per_page
      if repos.isEmpty then
        .returned [.noResults]
      else
        let si := start_index page per_page
        let ei := end_index page per_page total_count
        let head := [OutLine.header total_count si ei total_pages page,
          OutLine.rule]
        match render_items repos with
        | .error partOut => .raised (head ++ partOut)
        | .ok blocks =>
            if page < total_pages then
              .returned (head ++ blocks ++ [.nextPageHint (page + 1)])
            else
              .returned (head ++ blocks)

/-- Prefix an already printed line onto a run's output. -/
def RunResult.prepend (l : OutLine) : RunResult → RunResult
  | .exited c out => .exited c (l :: out)
  | .raised out => .raised (l :: out)
  | .returned out => .returned (l :: out)

/-- `main()` (lines 85-101) after successful argument parsing: `queryArgs` is
the non-empty positional keyword list and `page` the parsed `--page` integer.
If `page < 1`, the usage error is printed and the process exits 1 before any
network activity.  Otherwise the searching line is printed and
`search_github_repos` runs with the joined query, the requested page and
`per_page = 10`.  The second component counts HTTP requests issued. -/
def main_run (queryArgs : List String) (page : Int) (http : HttpOutcome) :
    RunResult × Nat :=
  if page < 1 then
    (.exited 1 [.usageError], 0)
  else
    let query := " ".intercalate queryArgs
    ((search_github_repos query page.toNat 10 http).prepend (.searching query),
      1)

example : total_pages_calc 25 10 = 3 := by decide
example : start_index 2 10 = 11 := by decide
example : end_index 2 10 25 = 20 := by decide
example : truncate_text "abc" 100 = "abc" := by decide
example :
    search_github_repos "q" 1 10 (.success ⟨some 0, some []⟩) =
      .returned [.noResults] := by decide

/-- C1: for every `pageSize p > 0` and `totalCount t ≥ 0`, the page count
computed on line 52 is the ceiling of `t / p` (Mathlib's `⌈/⌉` on `ℕ`),
equals `⌊(t + p - 1) / p⌋`, and satisfies the defining sandwich
`t ≤ p * totalPages < t + p`; the four quoted examples hold. -/
theorem C1_total_pages_is_ceiling (t p : Nat) (hp : 0 < p) :
    total_pages_calc t p = t ⌈/⌉ p ∧
    total_pages_calc t p = (t + p - 1) / p ∧
    t ≤ p * total_pages_calc t p ∧
    p * total_pages_calc t p < t + p ∧
    total_pages_calc 0 10 = 0 ∧ total_pages_calc 10 10 = 1 ∧
    total_pages_calc 11 10 = 2 ∧ total_pages_calc 100 10 = 10 := by
  have hd := Nat.div_add_mod (t + p - 1) p
  have hm : (t + p - 1) % p < p := Nat.mod_lt _ hp
  refine ⟨by rw [Nat.ceilDiv_eq_add_pred_div]; rfl, rfl, ?_, ?_, by decide,
    by decide, by decide, by decide⟩ <;>
    · unfold total_pages_calc
      omega

/-- C1 witness at `t = 11`, `p = 10`. -/
theorem C1_total_pages_is_ceiling_witness :
    total_pages_calc 11 10 = 11 ⌈/⌉ 10 ∧
    total_pages_calc 11 10 = (11 + 10 - 1) / 10 ∧
    11 ≤ 10 * total_pages_calc 11 10 ∧
    10 * total_pages_calc 11 10 < 11 + 10 ∧
    total_pages_calc 0 10 = 0 ∧ total_pages_calc 10 10 = 1 ∧
    total_pages_calc 11 10 = 2 ∧ total_pages_calc 100 10 = 10 :=
  C1_total_pages_is_ceiling 11 10 (by decide)

/-- C2: `truncate_text s 100` returns `s` unchanged when `s` has at most 100
characters, and otherwise returns the first 100 characters of `s` followed by
the `"..."` marker, a string of length 103; a length-150 input yields exactly
100 copies of its character plus the marker. -/
theorem C2_truncate_text_spec (s : String) :
    (s.length ≤ 100 → truncate_text s 100 = s) ∧
    (100 < s.length →
      truncate_text s 100 = s.take 100 ++ "..." ∧
      (truncate_text s 100).length = 103) ∧
    truncate_text (String.mk (List.replicate 150 'a')) 100 =
      String.mk (List.replicate 100 'a' ++ ['.', '.', '.']) := by
  refine ⟨fun h => ?_, fun h => ⟨?_, ?_⟩, by decide⟩
  · unfold truncate_text
    rw [if_neg (by omega)]
  · unfold truncate_text
    rw [if_pos (by omega)]
  · unfold truncate_text
    rw [if_pos (by omega), String.length_append, String.take_eq,
      String.length_mk, List.length_take]
    have hs : s.length = s.data.length := rfl
    have hdots : ("..." : String).length = 3 := by decide
    omega

/-- C2 witness at a concrete length-150 string. -/
theorem C2_truncate_text_spec_witness :
    truncate_text (String.mk (List.replicate 150 'a')) 100 =
        (String.mk (List.replicate 150 'a')).take 100 ++ "..." ∧
    (truncate_text (String.mk (List.replicate 150 'a')) 100).length = 103 :=
  (C2_truncate_text_spec (String.mk (List.replicate 150 'a'))).2.1 (by decide)

/-- C3: whenever the description key is not present-with-null (in particular
whenever it is absent), rendering an item succeeds, and each absent optional
field (full name, owner login, star count, description, URL) comes out as its
placeholder `"N/A"` / `"无描述"` / `0`. -/
theorem C3_absent_fields_get_placeholders (r : RepoItem)
    (hdesc : r.description ≠ some JStr.null) :
    ∃ name ownr stars desc url,
      render_item r = some (.repoBlock name ownr stars desc url) ∧
      (r.full_name = none → name = "N/A") ∧
      (r.owner = none → ownr = "N/A") ∧
      (r.stargazers_count = none → stars = 0) ∧
      (r.description = none → desc = "无描述") ∧
      (r.html_url = none → url = "N/A") := by
  rcases hd : r.description with _ | d
  · have heq : render_item r =
        some (.repoBlock ((r.full_name.getD (.str "N/A")).show)
          ((((r.owner.getD ⟨none⟩).login).getD (.str "N/A")).show)
          (r.stargazers_count.getD 0) (truncate_text "无描述" 100)
          ((r.html_url.getD (.str "N/A")).show)) := by
      unfold render_item
      rw [hd]
      rfl
    exact ⟨_, _, _, _, _, heq,
      fun h => by simp [h, JStr.show],
      fun h => by simp [h, JStr.show],
      fun h => by simp [h],
      fun _ => by decide,
      fun h => by simp [h, JStr.show]⟩
  · rcases d with _ | s
    · exact absurd hd hdesc
    · have heq : render_item r =
          some (.repoBlock ((r.full_name.getD (.str "N/A")).show)
            ((((r.owner.getD ⟨none⟩).login).getD (.str "N/A")).show)
            (r.stargazers_count.getD 0) (truncate_text s 100)
            ((r.html_url.getD (.str "N/A")).show)) := by
        unfold render_item
        rw [hd]
        rfl
      exact ⟨_, _, _, _, _, heq,
        fun h => by simp [h, JStr.show],
        fun h => by simp [h, JStr.show],
        fun h => by simp [h],
        fun h => by simp at h,
        fun h => by simp [h, JStr.show]⟩

/-- C3 witness at an item with every optional field absent. -/
theorem C3_absent_fields_get_placeholders_witness :
    ∃ name ownr stars desc url,
      render_item ⟨none, none, none, none, none⟩ =
        some (.repoBlock name ownr stars desc url) ∧
      ((⟨none, none, none, none, none⟩ : RepoItem).full_name = none →
        name = "N/A") ∧
      ((⟨none, none, none, none, none⟩ : RepoItem).owner = none →
        ownr = "N/A") ∧
      ((⟨none, none, none, none, none⟩ : RepoItem).stargazers_count = none →
        stars = 0) ∧
      ((⟨none, none, none, none, none⟩ : RepoItem).description = none →
        desc = "无描述") ∧
      ((⟨none, none, none, none, none⟩ : RepoItem).html_url = none →
        url = "N/A") :=
  C3_absent_fields_get_placeholders ⟨none, none, none, none, none⟩ (by decide)

/-- C4: a page argument below 1 makes `main` print the usage error and exit
with status 1 without issuing any HTTP request (the call count is 0). -/
theorem C4_invalid_page_no_network (qs : List String) (page : Int)
    (http : HttpOutcome) (h : page < 1) :
    main_run qs page http = (.exited 1 [.usageError], 0) ∧
    (main_run qs page http).1.exit_code = 1 ∧
    (main_run qs page http).2 = 0 := by
  unfold main_run
  rw [if_pos h]
  exact ⟨rfl, rfl, rfl⟩

/-- C4 witness at `page = 0`. -/
theorem C4_invalid_page_no_network_witness :
    main_run ["python"] 0 (.failure "refused") =
      (.exited 1 [.usageError], 0) ∧
    (main_run ["python"] 0 (.failure "refused")).1.exit_code = 1 ∧
    (main_run ["python"] 0 (.failure "refused")).2 = 0 :=
  C4_invalid_page_no_network ["python"] 0 (.failure "refused") (by decide)

/-- C5: when the single request raises (network failure, timeout, or non-2xx
status), the run prints the request-error message and exits with status 1,
and exactly one request was attempted (no retry: the call count is 1). -/
theorem C5_request_failure_fatal (qs : List String) (page : Int) (msg : String)
    (h : 1 ≤ page) :
    main_run qs page (.failure msg) =
      (.exited 1 [.searching (" ".intercalate qs), .requestError msg], 1) ∧
    (main_run qs page (.failure msg)).1.exit_code = 1 ∧
    (main_run qs page (.failure msg)).2 = 1 := by
  unfold main_run
  rw [if_neg (by omega)]
  exact ⟨rfl, rfl, rfl⟩

/-- C5 witness at `page = 1`. -/
theorem C5_request_failure_fatal_witness :
    main_run ["python"] 1 (.failure "refused") =
      (.exited 1 [.searching "python", .requestError "refused"], 1) ∧
    (main_run ["python"] 1 (.failure "refused")).1.exit_code = 1 ∧
    (main_run ["python"] 1 (.failure "refused")).2 = 1 :=
  C5_request_failure_fatal ["python"] 1 "refused" (by decide)

/-- C6: a parsed response with an empty item list prints only the searching
line and the no-results message, returns normally with exit status 0, and in
particular prints no header, no item block, no rule and no hint. -/
theorem C6_empty_items_no_results (qs : List String) (page : Int)
    (data : ResponseData) (hpage : 1 ≤ page)
    (hempty : data.items.getD [] = []) :
    main_run qs page (.success data) =
      (.returned [.searching (" ".intercalate qs), .noResults], 1) ∧
    (main_run qs page (.success data)).1.exit_code = 0 := by
  have hs : search_github_repos (" ".intercalate qs) page.toNat 10
      (.success data) = .returned [.noResults] := by
    simp only [search_github_repos]
    rw [hempty]
    rfl
  have hnl : ¬ page < 1 := not_lt.mpr hpage
  constructor <;>
    simp [main_run, hnl, hs, RunResult.prepend, RunResult.exit_code]

/-- C6 witness at an empty response. -/
theorem C6_empty_items_no_results_witness :
    main_run ["python"] 1 (.success ⟨some 0, some []⟩) =
      (.returned [.searching "python", .noResults], 1) ∧
    (main_run ["python"] 1 (.success ⟨some 0, some []⟩)).1.exit_code = 0 :=
  C6_empty_items_no_results ["python"] 1 ⟨some 0, some []⟩ (by decide)
    (by decide)

/-- Reduction of the success path when the item list is non-empty and the
item loop raises partway through. -/
theorem search_success_error_eq (q : String) (page p : Nat)
    (data : ResponseData) (out : List OutLine)
    (hne : (data.items.getD []).isEmpty = false)
    (herr : render_items (data.items.getD []) = .error out) :
    search_github_repos q page p (.success data) =
      .raised (.header (data.total_count.getD 0) (start_index page p)
          (end_index page p (data.total_count.getD 0))
          (total_pages_calc (data.total_count.getD 0) p) page ::
        .rule :: out) := by
  simp [search_github_repos, hne, herr]

/-- Reduction of the success path when the item list is non-empty and every
item renders. -/
theorem search_success_ok_eq (q : String) (page p : Nat)
    (data : ResponseData) (blocks : List OutLine)
    (hne : (data.items.getD []).isEmpty = false)
    (hok : render_items (data.items.getD []) = .ok blocks) :
    search_github_repos q page p (.success data) =
      if page < total_pages_calc (data.total_count.getD 0) p then
        .returned (.header (data.total_count.getD 0) (start_index page p)
            (end_index page p (data.total_count.getD 0))
            (total_pages_calc (data.total_count.getD 0) p) page ::
          .rule :: (blocks ++ [.nextPageHint (page + 1)]))
      else
        .returned (.header (data.total_count.getD 0) (start_index page p)
            (end_index page p (data.total_count.getD 0))
            (total_pages_calc (data.total_count.getD 0) p) page ::
          .rule :: blocks) := by
  by_cases hlt : page < total_pages_calc (data.total_count.getD 0) p <;>
    simp [search_github_repos, hne, hok, hlt]

/-- A successfully rendered item always yields a repository block. -/
theorem render_item_some_block {r : RepoItem} {b : OutLine}
    (h : render_item r = some b) :
    ∃ name ownr stars desc url,
      b = OutLine.repoBlock name ownr stars desc url := by
  unfold render_item at h
  rcases hd : r.description.getD (JStr.str "无描述") with _ | d
  · rw [hd] at h
    exact Option.noConfusion h
  · rw [hd] at h
    injection h with h
    exact ⟨_, _, _, _, _, h.symm⟩

/-- Every line of a fully rendered item loop is a rule or a repository
block. -/
theorem render_items_ok_mem {rs : List RepoItem} {out : List OutLine}
    (h : render_items rs = .ok out) {x : OutLine} (hx : x ∈ out) :
    x = OutLine.rule ∨
    ∃ name ownr stars desc url,
      x = OutLine.repoBlock name ownr stars desc url := by
  induction rs generalizing out with
  | nil =>
      unfold render_items at h
      injection h with h
      subst h
      cases hx
  | cons r rs ih =>
      unfold render_items at h
      cases hr : render_item r with
      | none =>
          rw [hr] at h
          exact Except.noConfusion h
      | some b =>
          rw [hr] at h
          cases hrs : render_items rs with
          | error o =>
              rw [hrs] at h
              exact Except.noConfusion h
          | ok o =>
              rw [hrs] at h
              injection h with h
              subst h
              rcases hx with _ | ⟨_, hx2⟩
              · exact Or.inr (render_item_some_block hr)
              · rcases hx2 with _ | ⟨_, hx3⟩
                · exact Or.inl rfl
                · exact ih hrs hx3

/-- The item loop never prints a next-page hint line. -/
theorem render_items_ok_no_hint {rs : List RepoItem} {out : List OutLine}
    (h : render_items rs = .ok out) (m : Nat) :
    OutLine.nextPageHint m ∉ out := by
  intro hm
  rcases render_items_ok_mem h hm with h1 | ⟨_, _, _, _, _, h1⟩ <;>
    exact OutLine.noConfusion h1

/-- C7: for `page ≥ 1`, `pageSize > 0` and any response with a non-empty item
list, the displayed header carries `startIndex = (page-1)*pageSize + 1` and
`endIndex = min(page*pageSize, totalCount)`; in particular page 2 of size 10
over 25 results shows the range 11-20. -/
theorem C7_display_range (q : String) (page p : Nat) (data : ResponseData)
    (hpage : 1 ≤ page) (hp : 0 < p)
    (hne : (data.items.getD []).isEmpty = false) :
    (∃ rest,
      (search_github_repos q page p (.success data)).output =
        .header (data.total_count.getD 0) ((page - 1) * p + 1)
          (min (page * p) (data.total_count.getD 0))
          (total_pages_calc (data.total_count.getD 0) p) page ::
        .rule :: rest) ∧
    start_index 2 10 = 11 ∧ end_index 2 10 25 = 20 := by
  refine ⟨?_, by decide, by decide⟩
  cases hrend : render_items (data.items.getD []) with
  | error out =>
      rw [search_success_error_eq q page p data out hne hrend]
      exact ⟨out, rfl⟩
  | ok blocks =>
      rw [search_success_ok_eq q page p data blocks hne hrend]
      by_cases hlt : page < total_pages_calc (data.total_count.getD 0) p
      · rw [if_pos hlt]
        exact ⟨blocks ++ [OutLine.nextPageHint (page + 1)], rfl⟩
      · rw [if_neg hlt]
        exact ⟨blocks, rfl⟩

/-- C7 witness at page 2, size 10, 25 total results, one rendered item. -/
theorem C7_display_range_witness :
    (∃ rest,
      (search_github_repos "q" 2 10
          (.success ⟨some 25, some [⟨none, none, none, none, none⟩]⟩)).output =
        .header ((⟨some 25, some [⟨none, none, none, none, none⟩]⟩ :
              ResponseData).total_count.getD 0) ((2 - 1) * 10 + 1)
          (min (2 * 10) ((⟨some 25, some [⟨none, none, none, none, none⟩]⟩ :
              ResponseData).total_count.getD 0))
          (total_pages_calc ((⟨some 25,
              some [⟨none, none, none, none, none⟩]⟩ :
              ResponseData).total_count.getD 0) 10) 2 ::
        .rule :: rest) ∧
    start_index 2 10 = 11 ∧ end_index 2 10 25 = 20 :=
  C7_display_range "q" 2 10 ⟨some 25, some [⟨none, none, none, none, none⟩]⟩
    (by decide) (by decide) (by decide)

/-- C8: on a non-empty, fully rendered result page, the next-page hint line
appears in the output exactly when it suggests page `page + 1` and the
requested page is strictly below the computed total page count. -/
theorem C8_next_page_hint_iff (q : String) (page p : Nat)
    (data : ResponseData) (blocks : List OutLine)
    (hne : (data.items.getD []).isEmpty = false)
    (hok : render_items (data.items.getD []) = .ok blocks) (m : Nat) :
    OutLine.nextPageHint m ∈
        (search_github_repos q page p (.success data)).output ↔
      m = page + 1 ∧
        page < total_pages_calc (data.total_count.getD 0) p := by
  rw [search_success_ok_eq q page p data blocks hne hok]
  have hnb := render_items_ok_no_hint hok
  by_cases hlt : page < total_pages_calc (data.total_count.getD 0) p
  · rw [if_pos hlt]
    simp [RunResult.output, hlt, hnb m]
  · rw [if_neg hlt]
    simp [RunResult.output, hlt, hnb m]

/-- C8 witness: page 1 of 3 pages shows the hint for page 2. -/
theorem C8_next_page_hint_iff_witness :
    OutLine.nextPageHint 2 ∈
        (search_github_repos "q" 1 10
          (.success ⟨some 25, some [⟨none, none, none, none, none⟩]⟩)).output ↔
      2 = 1 + 1 ∧
        1 < total_pages_calc ((⟨some 25,
            some [⟨none, none, none, none, none⟩]⟩ :
            ResponseData).total_count.getD 0) 10 :=
  C8_next_page_hint_iff "q" 1 10
    ⟨some 25, some [⟨none, none, none, none, none⟩]⟩
    [.repoBlock "N/A" "N/A" 0 "无描述" "N/A", .rule] (by decide) (by rfl) 2

/-- C9: an item whose description key is present but holds `null` makes
rendering raise (`len(None)` inside `truncate_text` is a `TypeError`): with
such an item the run aborts after the header and rule with exit status 1, so
the no-failure guarantee covers only absent keys, not null values. -/
theorem C9_null_description_raises :
    render_item ⟨none, some JStr.null, none, none, none⟩ = none ∧
    search_github_repos "q" 1 10
        (.success ⟨some 1, some [⟨none, some JStr.null, none, none, none⟩]⟩) =
      .raised [.header 1 1 1 1 1, .rule] ∧
    (search_github_repos "q" 1 10
        (.success ⟨some 1,
          some [⟨none, some JStr.null, none, none, none⟩]⟩)).exit_code =
      1 :=
  ⟨by decide, by decide, by decide⟩

/-- C10: a non-empty item list with the `total_count` key absent defaults the
count to 0: the header reports 0 results with `endIndex = 0` strictly below
`startIndex`, the page count is 0, no next-page hint is printed, and the
items are still rendered. -/
theorem C10_missing_total_count (q : String) (page p : Nat)
    (items : List RepoItem) (blocks : List OutLine) (hpage : 1 ≤ page)
    (hne : items.isEmpty = false) (hok : render_items items = .ok blocks) :
    search_github_repos q page p (.success ⟨none, some items⟩) =
      .returned (.header 0 (start_index page p) 0 0 page :: .rule :: blocks) ∧
    end_index page p 0 = 0 ∧
    total_pages_calc 0 p = 0 ∧
    end_index page p 0 < start_index page p ∧
    (∀ m, OutLine.nextPageHint m ∉
      (search_github_repos q page p (.success ⟨none, some items⟩)).output) := by
  have htp : total_pages_calc 0 p = 0 := by
    unfold total_pages_calc
    rcases Nat.eq_zero_or_pos p with h0 | h0
    · subst h0
      rfl
    · exact Nat.div_eq_of_lt (by omega)
  have hei : end_index page p 0 = 0 := by
    unfold end_index
    exact Nat.min_zero _
  have hmain : search_github_repos q page p (.success ⟨none, some items⟩) =
      .returned (.header 0 (start_index page p) 0 0 page ::
        .rule :: blocks) := by
    rw [search_success_ok_eq q page p ⟨none, some items⟩ blocks hne hok]
    rw [show ((⟨none, some items⟩ : ResponseData).total_count.getD 0) = 0
      from rfl]
    rw [htp, hei]
    rw [if_neg (Nat.not_lt_zero page)]
  refine ⟨hmain, hei, htp, ?_, ?_⟩
  · rw [hei]
    unfold start_index
    omega
  · intro m hm
    rw [hmain] at hm
    have hnb := render_items_ok_no_hint hok m
    rcases hm with _ | ⟨_, hm2⟩
    · rcases hm2 with _ | ⟨_, hm3⟩
      · exact hnb hm3

/-- C10 witness: one item, no `total_count` key, page 1 of size 10. -/
theorem C10_missing_total_count_witness :
    search_github_repos "q" 1 10
        (.success ⟨none, some [⟨none, none, none, none, none⟩]⟩) =
      .returned (.header 0 (start_index 1 10) 0 0 1 :: .rule ::
        [.repoBlock "N/A" "N/A" 0 "无描述" "N/A", .rule]) ∧
    end_index 1 10 0 = 0 ∧
    total_pages_calc 0 10 = 0 ∧
    end_index 1 10 0 < start_index 1 10 ∧
    (∀ m, OutLine.nextPageHint m ∉
      (search_github_repos "q" 1 10
        (.success ⟨none, some [⟨none, none, none, none, none⟩]⟩)).output) :=
  C10_missing_total_count "q" 1 10 [⟨none, none, none, none, none⟩]
    [.repoBlock "N/A" "N/A" 0 "无描述" "N/A", .rule] (by decide) (by decide)
    (by rfl)
